import Mathlib

/-!
Verification development for the kepler-exoplanet-analysis utilities.

The repository has two source files:

* `src/util/prepare.py` — pure tabular cleaning functions over pandas
  DataFrames (`drop_missing_values`, `prepare_kepler_explore`,
  `prepare_kepler_modeling`);
* `src/util/acquire.py` — an `Acquire` class implementing a
  cache-or-fetch pattern over a single csv cache file (`get_data`,
  `read_from_source`, `create_cache_file`).

We shallowly embed both.  A DataFrame is row-major: an ordered list of
column names and a list of rows, each row a list of optional scalar
cells (`none` models a missing value / NaN).  Python's `round` (banker's
rounding, round half to even) is modelled on `ℚ` by `pyRound`.  The
filesystem is an association list from paths to stored datasets; csv
serialization is modelled as lossless storage of the dataset, matching
the spec's invariant that the cache file round-trips columns and values.
-/

/-- Scalar cell values.  The cleaning code only ever inspects values by
equality with the string literal CANDIDATE, so a single scalar carrier
suffices; missing values are modelled by `Option`. -/
abbrev Val := String

/-- A cell: `none` is a missing value (NaN). -/
abbrev Cell := Option Val

/-- Row-major DataFrame: ordered column names plus rows of cells. -/
structure DataFrame where
  columns : List String
  rows : List (List Cell)
deriving DecidableEq, Repr

/-- Well-formedness: each row has one cell per column. -/
def DataFrame.WF (df : DataFrame) : Prop :=
  ∀ r ∈ df.rows, r.length = df.columns.length

instance (df : DataFrame) : Decidable df.WF :=
  inferInstanceAs (Decidable (∀ r ∈ df.rows, r.length = df.columns.length))

/-- Python `round`: round half to even (banker's rounding), as applied by
`round(df.shape[0] * required_percentage_columns)` in
`drop_missing_values`. -/
def pyRound (q : ℚ) : ℤ :=
  let f : ℤ := q.floor
  let frac : ℚ := q - (f : ℚ)
  if frac < 1/2 then f
  else if 1/2 < frac then f + 1
  else if f % 2 = 0 then f else f + 1

/-- Number of present (non-missing) cells of a row. -/
def presentCount (r : List Cell) : ℕ :=
  r.countP (fun c => c.isSome)

/-- Number of present (non-missing) cells in column `j` of `df`. -/
def colPresentCount (df : DataFrame) (j : ℕ) : ℕ :=
  df.rows.countP (fun r => (r.getD j none).isSome)

/-- `df.dropna(axis = 'columns', thresh = t)`: keep exactly the columns
having at least `t` non-missing values, in order. -/
def dropnaColumns (df : DataFrame) (t : ℤ) : DataFrame :=
  let keep := (List.range df.columns.length).filter
    (fun j => decide (t ≤ (colPresentCount df j : ℤ)))
  { columns := keep.map (fun j => df.columns.getD j ""),
    rows := df.rows.map (fun r => keep.map (fun j => r.getD j none)) }

/-- `df.dropna(axis = 'index', thresh = t)`: keep exactly the rows having
at least `t` non-missing values, in order. -/
def dropnaIndex (df : DataFrame) (t : ℤ) : DataFrame :=
  { columns := df.columns,
    rows := df.rows.filter (fun r => decide (t ≤ (presentCount r : ℤ))) }

/-- `drop_missing_values(df, required_percentage_columns,
required_percentage_rows)` from `src/util/prepare.py`:
first `dropna` over columns with threshold
`round(df.shape[0] * required_percentage_columns)`, then `dropna` over
rows with threshold `round(df.shape[1] * required_percentage_rows)`,
where `df.shape[1]` is the column count after the first drop. -/
def drop_missing_values (df : DataFrame)
    (required_percentage_columns required_percentage_rows : ℚ) : DataFrame :=
  let df1 := dropnaColumns df
    (pyRound ((df.rows.length : ℚ) * required_percentage_columns))
  dropnaIndex df1 (pyRound ((df1.columns.length : ℚ) * required_percentage_rows))

/-- Index of the first column named `n`, as pandas column lookup does;
`none` models the KeyError / AttributeError raised on a missing column. -/
def colIdx? (cols : List String) (n : String) : Option ℕ :=
  cols.findIdx? (fun c => c == n)

/-- Indices of a list of column names; `none` if any is absent. -/
def colIdxs? (cols : List String) : List String → Option (List ℕ)
  | [] => some []
  | n :: ns =>
    match colIdx? cols n, colIdxs? cols ns with
    | some j, some js => some (j :: js)
    | _, _ => none

/-- `df[~(df.koi_disposition == 'CANDIDATE')]`: keep the rows whose
`koi_disposition` cell is not the string CANDIDATE (a missing cell
compares unequal, so such rows are kept); fails if the column is
absent (pandas AttributeError). -/
def filterNotCandidate (df : DataFrame) : Option DataFrame :=
  match colIdx? df.columns "koi_disposition" with
  | none => none
  | some j => some
    { columns := df.columns,
      rows := df.rows.filter (fun r => !(r.getD j none == some "CANDIDATE")) }

/-- `df.drop(columns = names)`: remove every column whose name is listed;
pandas raises a KeyError when any listed name is absent, modelled by
`none`. -/
def dropColumns (df : DataFrame) (names : List String) : Option DataFrame :=
  if names.all (fun n => df.columns.contains n) then
    let keep := (List.range df.columns.length).filter
      (fun j => !(names.contains (df.columns.getD j "")))
    some { columns := keep.map (fun j => df.columns.getD j ""),
           rows := df.rows.map (fun r => keep.map (fun j => r.getD j none)) }
  else none

/-- `df[names]`: project onto the listed columns, in list order; pandas
raises a KeyError when any is absent, modelled by `none`. -/
def selectColumns (df : DataFrame) (names : List String) : Option DataFrame :=
  match colIdxs? df.columns names with
  | none => none
  | some idxs => some
    { columns := names,
      rows := df.rows.map (fun r => idxs.map (fun j => r.getD j none)) }

/-- `df.rename(columns = m)`: map every column name through the map,
leaving names not in the map unchanged; never fails. -/
def renameColumns (df : DataFrame) (m : List (String × String)) : DataFrame :=
  { columns := df.columns.map (fun c => (m.lookup c).getD c),
    rows := df.rows }

/-- The three id columns dropped by `prepare_kepler_explore`. -/
def explore_columns_to_drop : List String :=
  ["rowid", "kepid", "kepoi_name"]

/-- `prepare_kepler_explore(df)` from `src/util/prepare.py`. -/
def prepare_kepler_explore (df : DataFrame) : Option DataFrame :=
  let df1 := drop_missing_values df (3/4) 1
  match filterNotCandidate df1 with
  | none => none
  | some df2 =>
    match dropColumns df2 explore_columns_to_drop with
    | none => none
    | some df3 => some (renameColumns df3 [("koi_disposition", "disposition")])

/-- The seven columns kept by `prepare_kepler_modeling`, in order. -/
def modeling_columns_to_keep : List String :=
  ["koi_disposition", "koi_depth", "koi_prad", "koi_teq",
   "koi_model_snr", "koi_period", "koi_duration"]

/-- The rename map of `prepare_kepler_modeling`. -/
def modeling_rename_map : List (String × String) :=
  [("koi_disposition", "disposition"),
   ("koi_depth", "transit_depth"),
   ("koi_prad", "planetary_radius"),
   ("koi_teq", "temperature"),
   ("koi_model_snr", "normalized_depth"),
   ("koi_period", "orbital_period"),
   ("koi_duration", "transit_duration")]

/-- `prepare_kepler_modeling(df)` from `src/util/prepare.py`. -/
def prepare_kepler_modeling (df : DataFrame) : Option DataFrame :=
  let df1 := drop_missing_values df (3/4) 1
  match filterNotCandidate df1 with
  | none => none
  | some df2 =>
    match selectColumns df2 modeling_columns_to_keep with
    | none => none
    | some df3 => some (renameColumns df3 modeling_rename_map)

/-! ### The acquisition model (`src/util/acquire.py`) -/

/-- Errors an acquisition can raise.  The base class's
`read_from_source` raises `NotImplementedError(msg)`. -/
inductive AcquireError where
  | notImplemented (msg : String)
deriving DecidableEq, Repr

/-- The guidance message of the base class's `NotImplementedError`. -/
def read_from_source_message : String :=
  "The read_from_source method has not been implemented. " ++
  "This method must be implemented in a child class in order " ++
  "to read data from the source. Otherwise, a .csv file " ++
  "containing the required data must be manually downloaded."

/-- `Acquire.read_from_source` of the base class: always raises
`NotImplementedError` with the guidance message.  A subclass overrides
this; `get_data` below is therefore parameterised by the outcome of the
`read_from_source` in effect. -/
def read_from_source : Except AcquireError DataFrame :=
  .error (.notImplemented read_from_source_message)

/-- The filesystem: an association list from paths to the dataset stored
at that path.  Serialization to csv is modelled as lossless storage. -/
structure FS where
  files : List (String × DataFrame)
deriving DecidableEq, Repr

/-- `os.path.exists(p)`. -/
def FS.pathExists (fs : FS) (p : String) : Bool :=
  (fs.files.lookup p).isSome

/-- Contents of the file at `p`, when one exists. -/
def FS.read (fs : FS) (p : String) : Option DataFrame :=
  fs.files.lookup p

/-- `pd.read_csv(p)` on an existing file: the dataset stored at `p`
(defaulting to the empty frame; `get_data` only reads after an
existence check, so the default is never exercised there). -/
def FS.readD (fs : FS) (p : String) : DataFrame :=
  (fs.files.lookup p).getD ⟨[], []⟩

/-- `df.to_csv(p, index = False)`: create or overwrite the file at `p`. -/
def FS.write (fs : FS) (p : String) (d : DataFrame) : FS :=
  ⟨(p, d) :: fs.files⟩

/-- The `Acquire` instance state: just the configured cache path. -/
structure Acquire where
  file_name : String
deriving DecidableEq, Repr

deriving instance DecidableEq for Except

/-- Outcome of a `get_data` call: the returned dataframe (or the raised
error), the resulting filesystem, the console messages printed, and
whether `read_from_source` was invoked. -/
structure GetDataResult where
  df : Except AcquireError DataFrame
  fs : FS
  log : List String
  sourceCalled : Bool
deriving DecidableEq, Repr

/-- `Acquire.create_cache_file(df, cache_data, verbose)`: write the csv
when `cache_data` is true, otherwise leave the filesystem unchanged;
returns the new filesystem and the messages printed. -/
def create_cache_file (a : Acquire) (d : DataFrame)
    (cache_data verbose : Bool) (fs : FS) : FS × List String :=
  if cache_data then
    (fs.write a.file_name d, if verbose then ["Cacheing data."] else [])
  else
    (fs, if verbose then ["Data not cached."] else [])

/-- `Acquire.get_data(use_cache, cache_data, verbose)`: if the cache file
exists and `use_cache` is set, read and return it; otherwise call
`read_from_source` (whose outcome is the `source` parameter, an
exception propagating before any caching) and cache the result via
`create_cache_file`. -/
def get_data (a : Acquire) (source : Except AcquireError DataFrame)
    (use_cache cache_data verbose : Bool) (fs : FS) : GetDataResult :=
  if fs.pathExists a.file_name && use_cache then
    { df := .ok (fs.readD a.file_name), fs := fs,
      log := if verbose then ["Reading from .csv file."] else [],
      sourceCalled := false }
  else
    match source with
    | .error e =>
      { df := .error e, fs := fs,
        log := if verbose then ["Reading from source."] else [],
        sourceCalled := true }
    | .ok d =>
      let cc := create_cache_file a d cache_data verbose fs
      { df := .ok d, fs := cc.1,
        log := (if verbose then ["Reading from source."] else []) ++ cc.2,
        sourceCalled := true }

/-! ### Spec-side definitions

These follow the wording of the specification, to be compared with the
definitions translated from the source above. -/

/-- `dropSparse` as the spec words it: first drop exactly those columns
whose count of present values is strictly less than
`round(rowCount * columnThreshold)`; then, on the column-reduced table,
drop exactly those rows whose count of present values is strictly less
than `round(columnCount * rowThreshold)`, `columnCount` counted after
the column drop.  Retention by `List.filter` makes order preservation
explicit. -/
def dropSparse_spec (df : DataFrame) (columnThreshold rowThreshold : ℚ) : DataFrame :=
  let colThresh := pyRound ((df.rows.length : ℚ) * columnThreshold)
  let keep := (List.range df.columns.length).filter
    (fun j => !decide ((colPresentCount df j : ℤ) < colThresh))
  let cols1 := keep.map (fun j => df.columns.getD j "")
  let rows1 := df.rows.map (fun r => keep.map (fun j => r.getD j none))
  let rowThresh := pyRound ((cols1.length : ℚ) * rowThreshold)
  { columns := cols1,
    rows := rows1.filter (fun r => !decide ((presentCount r : ℤ) < rowThresh)) }

/-- A table has no missing value in any cell. -/
def noMissing (df : DataFrame) : Bool :=
  df.rows.all (fun r => r.all (fun c => c.isSome))

/-! ### Concrete data used by the witnesses -/

/-- A small kepler-shaped table: one CANDIDATE row, one row with a
missing value, one fully-missing column. -/
def dfW : DataFrame :=
  ⟨["rowid", "kepid", "kepoi_name", "koi_disposition", "koi_depth", "koi_prad",
    "koi_teq", "koi_model_snr", "koi_period", "koi_duration", "koi_empty"],
   [[some "1", some "10", some "K1", some "CONFIRMED", some "1.2", some "2",
     some "300", some "10", some "9.4", some "2.1", none],
    [some "2", some "11", some "K2", some "CANDIDATE", some "1.3", some "3",
     some "301", some "11", some "9.5", some "2.2", none],
    [some "3", some "12", some "K3", some "FALSE POSITIVE", none, some "4",
     some "302", some "12", some "9.6", some "2.3", none],
    [some "4", some "13", some "K4", some "CONFIRMED", some "1.5", some "5",
     some "303", some "13", some "9.7", some "2.4", none]]⟩

/-- A two-column table with a missing cell, for the `dropSparse`
witnesses. -/
def dfSmall : DataFrame :=
  ⟨["a", "b"], [[some "1", some "2"], [some "3", none]]⟩

/-- A dataset cached on the witness filesystem. -/
def dfCached : DataFrame :=
  ⟨["x"], [[some "7"]]⟩

/-- A witness filesystem holding one cache file. -/
def fsW : FS :=
  ⟨[("kepler.csv", dfCached)]⟩

/-- A witness acquirer configured with the cached path. -/
def aW : Acquire :=
  ⟨"kepler.csv"⟩

/-- A witness acquirer configured with a path that has no file. -/
def aW2 : Acquire :=
  ⟨"other.csv"⟩

/-! ### Helper lemmas -/

theorem filter_range_getD {α : Type} (l : List α) (d : α) (p : α → Bool) :
    ((List.range l.length).filter (fun j => p (l.getD j d))).map (fun j => l.getD j d)
      = l.filter p := by
  induction l with
  | nil => rfl
  | cons x xs ih =>
    rw [List.length_cons, List.range_succ_eq_map, List.filter_cons]
    by_cases h : p x = true
    · simp only [List.getD_cons_zero, h, if_pos, List.map_cons, List.filter_map,
        List.map_map, Function.comp_def, List.getD_cons_succ]
      rw [List.filter_cons]
      simp only [h, if_pos, List.map_cons, List.getD_cons_zero]
      exact congrArg (x :: ·) ih
    · simp only [List.getD_cons_zero, h, List.filter_map, List.map_map,
        Function.comp_def, List.getD_cons_succ, Bool.false_eq_true, if_false]
      rw [List.filter_cons]
      simp only [h, Bool.false_eq_true, if_false]
      exact ih

theorem getD_range_map {α : Type} (l : List α) (d : α) :
    (List.range l.length).map (fun j => l.getD j d) = l := by
  have h := filter_range_getD l d (fun _ => true)
  simpa using h

theorem filter_range_getD_zip {α β : Type} (l : List α) (r : List β) (d : α) (e : β)
    (p : α → Bool) (h : r.length = l.length) :
    ((List.range l.length).filter (fun j => p (l.getD j d))).map (fun j => r.getD j e)
      = (l.zip r).filterMap (fun cx => if p cx.1 then some cx.2 else none) := by
  induction l generalizing r with
  | nil =>
    rw [List.length_nil, List.eq_nil_of_length_eq_zero h]
    rfl
  | cons x xs ih =>
    match r with
    | [] => simp at h
    | y :: ys =>
      rw [List.length_cons, List.range_succ_eq_map, List.filter_cons]
      by_cases hp : p x = true
      · simp only [List.getD_cons_zero, hp, if_pos, List.map_cons, List.filter_map,
          List.map_map, Function.comp_def, List.getD_cons_succ, List.zip_cons_cons,
          List.filterMap_cons]
        rw [ih ys (by simpa using h)]
      · simp only [List.getD_cons_zero, hp, Bool.false_eq_true, if_false, List.filter_map,
          List.map_map, Function.comp_def, List.getD_cons_succ, List.zip_cons_cons,
          List.filterMap_cons]
        rw [ih ys (by simpa using h)]

theorem ratFloor_intCast (z : ℤ) : Rat.floor (z : ℚ) = z := by
  simp [Rat.floor]

theorem pyRound_intCast (z : ℤ) : pyRound (z : ℚ) = z := by
  simp only [pyRound, ratFloor_intCast]
  norm_num

theorem pyRound_natCast (n : ℕ) : pyRound (n : ℚ) = n := by
  have h : ((n : ℤ) : ℚ) = (n : ℚ) := by push_cast; rfl
  rw [← h, pyRound_intCast]

theorem pyRound_zero : pyRound 0 = 0 := by
  have h := pyRound_intCast 0
  simpa using h

theorem decide_le_eq_not_decide_lt (t c : ℤ) :
    (decide (t ≤ c)) = !decide (c < t) := by
  by_cases h : t ≤ c
  · simp [h, not_lt.mpr h]
  · simp [h, lt_of_not_le h]

theorem dropnaColumns_WF (df : DataFrame) (t : ℤ) : (dropnaColumns df t).WF := by
  intro r hr
  simp only [dropnaColumns, List.mem_map] at hr
  obtain ⟨r0, _, rfl⟩ := hr
  simp [dropnaColumns]

theorem dropnaIndex_WF (df : DataFrame) (t : ℤ) (h : df.WF) : (dropnaIndex df t).WF := by
  intro r hr
  simp only [dropnaIndex, List.mem_filter] at hr
  exact h r hr.1

theorem drop_missing_values_WF (df : DataFrame) (ct rt : ℚ) :
    (drop_missing_values df ct rt).WF := by
  apply dropnaIndex_WF
  apply dropnaColumns_WF

theorem dropnaIndex_nonpos (df : DataFrame) (t : ℤ) (h : t ≤ 0) : dropnaIndex df t = df := by
  simp only [dropnaIndex]
  have hall : ∀ r ∈ df.rows, (decide (t ≤ (presentCount r : ℤ))) = true := by
    intro r _
    simp only [decide_eq_true_eq]
    exact le_trans h (Int.natCast_nonneg _)
  rw [List.filter_congr hall, List.filter_true]

theorem dropnaColumns_nonpos (df : DataFrame) (t : ℤ) (h : t ≤ 0) (hwf : df.WF) :
    dropnaColumns df t = df := by
  simp only [dropnaColumns]
  have hall : ∀ j ∈ List.range df.columns.length,
      (decide (t ≤ (colPresentCount df j : ℤ))) = true := by
    intro j _
    simp only [decide_eq_true_eq]
    exact le_trans h (Int.natCast_nonneg _)
  rw [List.filter_congr hall, List.filter_true]
  have hrows : df.rows.map
      (fun r => (List.range df.columns.length).map (fun j => r.getD j none)) = df.rows := by
    have hpt : ∀ r ∈ df.rows,
        (List.range df.columns.length).map (fun j => r.getD j none) = id r := by
      intro r hr
      rw [← hwf r hr]
      exact getD_range_map r none
    rw [List.map_congr_left hpt, List.map_id]
  rw [getD_range_map df.columns "", hrows]

/-! ### Claim theorems -/

/-- C1: for thresholds in `[0,1]`, `drop_missing_values` first drops
exactly the columns whose present-value count is strictly below
`round(rowCount * columnThreshold)`, then on the column-reduced table
drops exactly the rows whose present-value count is strictly below
`round(columnCount * rowThreshold)`, `columnCount` counted after the
column drop (this is `dropSparse_spec`, whose retention is by
order-preserving `List.filter`); moreover the retained columns form a
sublist of the original columns and the retained rows form a sublist of
the rows that the column drop alone (row threshold `0`) would leave. -/
theorem drop_missing_values_eq_dropSparse_spec (df : DataFrame)
    (columnThreshold rowThreshold : ℚ)
    (hc0 : 0 ≤ columnThreshold) (hc1 : columnThreshold ≤ 1)
    (hr0 : 0 ≤ rowThreshold) (hr1 : rowThreshold ≤ 1) :
    drop_missing_values df columnThreshold rowThreshold
        = dropSparse_spec df columnThreshold rowThreshold ∧
    (drop_missing_values df columnThreshold rowThreshold).columns.Sublist df.columns ∧
    (drop_missing_values df columnThreshold rowThreshold).rows.Sublist
      ((drop_missing_values df columnThreshold 0).rows) := by
  refine ⟨?_, ?_, ?_⟩
  · simp only [drop_missing_values, dropnaColumns, dropnaIndex, dropSparse_spec,
      decide_le_eq_not_decide_lt]
  · simp only [drop_missing_values, dropnaColumns, dropnaIndex]
    have h1 : ((List.range df.columns.length).filter
        (fun j => decide ((pyRound ((df.rows.length : ℚ) * columnThreshold)) ≤
          (colPresentCount df j : ℤ)))).Sublist (List.range df.columns.length) :=
      List.filter_sublist _
    have h2 := h1.map (fun j => df.columns.getD j "")
    rw [getD_range_map] at h2
    exact h2
  · have h1 : drop_missing_values df columnThreshold 0
        = dropnaColumns df (pyRound ((df.rows.length : ℚ) * columnThreshold)) := by
      simp only [drop_missing_values]
      rw [mul_zero, pyRound_zero, dropnaIndex_nonpos _ 0 le_rfl]
    rw [h1]
    simp only [drop_missing_values, dropnaIndex]
    exact List.filter_sublist _

/-- Witness for C1 at a concrete table and thresholds. -/
theorem drop_missing_values_eq_dropSparse_spec_witness :
    drop_missing_values dfSmall (3/4) (1/2) = dropSparse_spec dfSmall (3/4) (1/2) ∧
    (drop_missing_values dfSmall (3/4) (1/2)).columns.Sublist dfSmall.columns ∧
    (drop_missing_values dfSmall (3/4) (1/2)).rows.Sublist
      ((drop_missing_values dfSmall (3/4) 0).rows) :=
  drop_missing_values_eq_dropSparse_spec dfSmall (3/4) (1/2)
    (by with_unfolding_all decide) (by with_unfolding_all decide)
    (by with_unfolding_all decide) (by with_unfolding_all decide)

/-- C8: with both thresholds `0`, `drop_missing_values` is the identity
transform: no column and no row is dropped. -/
theorem drop_missing_values_zero_zero_id (df : DataFrame) (hwf : df.WF) :
    drop_missing_values df 0 0 = df := by
  simp only [drop_missing_values]
  rw [mul_zero, pyRound_zero, dropnaColumns_nonpos df 0 le_rfl hwf, mul_zero, pyRound_zero,
    dropnaIndex_nonpos df 0 le_rfl]

/-- Witness for C8 at a concrete table containing a missing value. -/
theorem drop_missing_values_zero_zero_id_witness :
    drop_missing_values dfSmall 0 0 = dfSmall :=
  drop_missing_values_zero_zero_id dfSmall (by decide)

theorem get_data_cache_hit_aux (a : Acquire) (source : Except AcquireError DataFrame)
    (cache_data verbose : Bool) (fs : FS) (d : DataFrame)
    (h : fs.read a.file_name = some d) :
    get_data a source true cache_data verbose fs =
      { df := .ok d, fs := fs,
        log := if verbose then ["Reading from .csv file."] else [],
        sourceCalled := false } := by
  have hex : (fs.pathExists a.file_name && true) = true := by
    simp only [FS.pathExists, Bool.and_true]
    rw [show fs.files.lookup a.file_name = some d from h]
    rfl
  simp only [get_data, hex, if_pos]
  simp only [FS.readD, show fs.files.lookup a.file_name = some d from h, Option.getD_some]

theorem get_data_source_ok_aux (a : Acquire) (d : DataFrame) (uc cd vb : Bool) (fs : FS)
    (hbranch : (fs.pathExists a.file_name && uc) = false) :
    get_data a (.ok d) uc cd vb fs =
      { df := .ok d,
        fs := if cd then fs.write a.file_name d else fs,
        log := (if vb then ["Reading from source."] else []) ++
          (if cd then (if vb then ["Cacheing data."] else [])
           else (if vb then ["Data not cached."] else [])),
        sourceCalled := true } := by
  simp only [get_data]
  rw [if_neg (by simp [hbranch])]
  cases cd <;> simp [create_cache_file]

theorem get_data_source_error_aux (a : Acquire) (e : AcquireError) (uc cd vb : Bool) (fs : FS)
    (hbranch : (fs.pathExists a.file_name && uc) = false) :
    get_data a (.error e) uc cd vb fs =
      { df := .error e, fs := fs,
        log := if vb then ["Reading from source."] else [],
        sourceCalled := true } := by
  simp only [get_data]
  rw [if_neg (by simp [hbranch])]

theorem write_read_same (fs : FS) (p : String) (d : DataFrame) :
    (fs.write p d).read p = some d := by
  simp [FS.write, FS.read, List.lookup_cons]

theorem write_read_other (fs : FS) (p q : String) (d : DataFrame) (h : q ≠ p) :
    (fs.write p d).read q = fs.read q := by
  simp only [FS.write, FS.read, List.lookup_cons]
  rw [show (q == p) = false from beq_eq_false_iff_ne.mpr h]

/-- C2: with `use_cache` true and a file at the configured path, `get_data`
returns the deserialized contents of that file and does not invoke
`read_from_source`; the filesystem is untouched. -/
theorem get_data_cache_hit (a : Acquire) (source : Except AcquireError DataFrame)
    (cache_data verbose : Bool) (fs : FS) (d : DataFrame)
    (h : fs.read a.file_name = some d) :
    get_data a source true cache_data verbose fs =
      { df := .ok d, fs := fs,
        log := if verbose then ["Reading from .csv file."] else [],
        sourceCalled := false } :=
  get_data_cache_hit_aux a source cache_data verbose fs d h

/-- Witness for C2. -/
theorem get_data_cache_hit_witness :
    get_data aW read_from_source true true false fsW =
      { df := .ok dfCached, fs := fsW, log := [], sourceCalled := false } :=
  get_data_cache_hit aW read_from_source true false fsW dfCached
    (by with_unfolding_all rfl)

/-- C3: after a `get_data` that took the fetch-from-source branch with
`cache_data` true and source result `d`, a later `get_data` with
`use_cache` true returns exactly `d` again and does not invoke the
source. -/
theorem get_data_cache_round_trip (a : Acquire)
    (src src2 : Except AcquireError DataFrame) (d : DataFrame)
    (uc vb cd2 vb2 : Bool) (fs : FS)
    (hbranch : (fs.pathExists a.file_name && uc) = false)
    (hsrc : src = .ok d) :
    (get_data a src2 true cd2 vb2 (get_data a src uc true vb fs).fs).df = .ok d ∧
    (get_data a src2 true cd2 vb2 (get_data a src uc true vb fs).fs).sourceCalled
      = false := by
  subst hsrc
  have h1 : (get_data a (.ok d) uc true vb fs).fs = fs.write a.file_name d := by
    rw [get_data_source_ok_aux a d uc true vb fs hbranch]
    simp
  rw [h1, get_data_cache_hit_aux a src2 cd2 vb2 (fs.write a.file_name d) d
    (write_read_same fs a.file_name d)]
  exact ⟨rfl, rfl⟩

/-- Witness for C3. -/
theorem get_data_cache_round_trip_witness :
    (get_data aW2 read_from_source true true false
        (get_data aW2 (.ok dfSmall) false true false fsW).fs).df = .ok dfSmall ∧
    (get_data aW2 read_from_source true true false
        (get_data aW2 (.ok dfSmall) false true false fsW).fs).sourceCalled = false :=
  get_data_cache_round_trip aW2 (.ok dfSmall) read_from_source dfSmall
    false false true false fsW (by with_unfolding_all rfl) rfl

/-- C6: the base-class `read_from_source` is the `NotImplementedError`
carrying the guidance message, and a `get_data` that takes the
fetch-from-source branch on the base class propagates that error and
returns no dataset. -/
theorem get_data_base_not_implemented (a : Acquire) (uc cd vb : Bool) (fs : FS)
    (hbranch : (fs.pathExists a.file_name && uc) = false) :
    read_from_source = .error (.notImplemented read_from_source_message) ∧
    (get_data a read_from_source uc cd vb fs).df =
      .error (.notImplemented read_from_source_message) := by
  refine ⟨rfl, ?_⟩
  rw [show read_from_source = .error (.notImplemented read_from_source_message) from rfl,
    get_data_source_error_aux a _ uc cd vb fs hbranch]

/-- Witness for C6. -/
theorem get_data_base_not_implemented_witness :
    read_from_source = .error (.notImplemented read_from_source_message) ∧
    (get_data aW2 read_from_source true true false fsW).df =
      .error (.notImplemented read_from_source_message) :=
  get_data_base_not_implemented aW2 true true false fsW (by with_unfolding_all rfl)

/-- C7: `get_data` writes at most the one file at the configured path, and
only on the fetch-from-source branch with `cache_data` true; in every
other case the filesystem is returned unchanged, and the contents of
every other path are always preserved. -/
theorem get_data_frame_effect (a : Acquire) (src : Except AcquireError DataFrame)
    (uc cd vb : Bool) (fs : FS) :
    (get_data a src uc cd vb fs).fs =
      (if (!(fs.pathExists a.file_name && uc)) && cd then
        match src with
        | .ok d => fs.write a.file_name d
        | .error _ => fs
      else fs) ∧
    ∀ q : String, q = a.file_name ∨ (get_data a src uc cd vb fs).fs.read q = fs.read q := by
  by_cases hb : (fs.pathExists a.file_name && uc) = true
  · constructor
    · simp only [get_data, hb, if_pos, Bool.not_true, Bool.false_and, Bool.false_eq_true,
        if_false]
    · intro q
      right
      simp only [get_data, hb, if_pos]
  · have hb' : (fs.pathExists a.file_name && uc) = false := by
      revert hb
      cases (fs.pathExists a.file_name && uc) <;> simp
    cases src with
    | error e =>
      rw [get_data_source_error_aux a e uc cd vb fs hb']
      constructor
      · cases cd <;> simp [hb']
      · intro q
        right
        rfl
    | ok d =>
      rw [get_data_source_ok_aux a d uc cd vb fs hb']
      cases cd with
      | false =>
        constructor
        · simp [hb']
        · intro q
          right
          rfl
      | true =>
        constructor
        · simp [hb']
        · intro q
          by_cases hq : q = a.file_name
          · exact Or.inl hq
          · right
            have hfs : (if (true : Bool) = true then fs.write a.file_name d else fs)
                = fs.write a.file_name d := by simp
            rw [hfs]
            exact write_read_other fs a.file_name q d hq

/-- C9: the `verbose` flag only controls the messages printed: the
returned dataframe (or error), the resulting filesystem, and whether the
source was invoked are identical for any two values of `verbose`. -/
theorem get_data_verbose_independent (a : Acquire) (src : Except AcquireError DataFrame)
    (uc cd v1 v2 : Bool) (fs : FS) :
    (get_data a src uc cd v1 fs).df = (get_data a src uc cd v2 fs).df ∧
    (get_data a src uc cd v1 fs).fs = (get_data a src uc cd v2 fs).fs ∧
    (get_data a src uc cd v1 fs).sourceCalled
      = (get_data a src uc cd v2 fs).sourceCalled := by
  by_cases hb : (fs.pathExists a.file_name && uc) = true
  · simp [get_data, hb]
  · have hb' : (fs.pathExists a.file_name && uc) = false := by
      revert hb
      cases (fs.pathExists a.file_name && uc) <;> simp
    cases src with
    | error e =>
      rw [get_data_source_error_aux a e uc cd v1 fs hb',
        get_data_source_error_aux a e uc cd v2 fs hb']
      exact ⟨rfl, rfl, rfl⟩
    | ok d =>
      rw [get_data_source_ok_aux a d uc cd v1 fs hb',
        get_data_source_ok_aux a d uc cd v2 fs hb']
      exact ⟨rfl, rfl, rfl⟩

theorem findIdx?_some_lt {α : Type} (p : α → Bool) (l : List α) (i j : ℕ)
    (h : List.findIdx? p l i = some j) : j < i + l.length := by
  induction l generalizing i with
  | nil => simp [List.findIdx?] at h
  | cons x xs ih =>
    rw [List.findIdx?_cons] at h
    by_cases hp : p x = true
    · rw [if_pos hp] at h
      have hij := Option.some.inj h
      simp [← hij]
    · rw [if_neg hp] at h
      have hlt := ih (i + 1) h
      simp only [List.length_cons]
      omega

theorem colIdx?_lt (cols : List String) (n : String) (j : ℕ)
    (h : colIdx? cols n = some j) : j < cols.length := by
  have hlt := findIdx?_some_lt (fun c => c == n) cols 0 j h
  simpa using hlt

theorem colIdxs?_cons_inv (cols : List String) (n : String) (ns : List String) (l : List ℕ)
    (h : colIdxs? cols (n :: ns) = some l) :
    ∃ k ks, l = k :: ks ∧ colIdx? cols n = some k ∧ colIdxs? cols ns = some ks := by
  cases hj : colIdx? cols n with
  | none => simp [colIdxs?, hj] at h
  | some k =>
    cases hjs : colIdxs? cols ns with
    | none => simp [colIdxs?, hj, hjs] at h
    | some ks =>
      simp only [colIdxs?, hj, hjs, Option.some.injEq] at h
      exact ⟨k, ks, h.symm, rfl, rfl⟩

theorem colIdxs?_lt (cols : List String) (names : List String) (l : List ℕ)
    (h : colIdxs? cols names = some l) : ∀ k ∈ l, k < cols.length := by
  induction names generalizing l with
  | nil =>
    simp only [colIdxs?, Option.some.injEq] at h
    subst h
    simp
  | cons n ns ih =>
    obtain ⟨k, ks, rfl, hk, hks⟩ := colIdxs?_cons_inv cols n ns l h
    intro m hm
    rcases List.mem_cons.mp hm with rfl | hm
    · exact colIdx?_lt cols n m hk
    · exact ih ks hks m hm

theorem filterNotCandidate_eq (df : DataFrame) (j : ℕ)
    (hj : colIdx? df.columns "koi_disposition" = some j) :
    filterNotCandidate df = some
      ⟨df.columns, df.rows.filter (fun r => !(r.getD j none == some "CANDIDATE"))⟩ := by
  simp [filterNotCandidate, hj]

theorem selectColumns_eq (df : DataFrame) (names : List String) (idxs : List ℕ)
    (hi : colIdxs? df.columns names = some idxs) :
    selectColumns df names = some
      ⟨names, df.rows.map (fun r => idxs.map (fun j => r.getD j none))⟩ := by
  simp [selectColumns, hi]

theorem dropColumns_eq (df : DataFrame) (names : List String)
    (hg : names.all (fun n => df.columns.contains n) = true) :
    dropColumns df names = some
      ⟨((List.range df.columns.length).filter
          (fun j => !(names.contains (df.columns.getD j "")))).map
        (fun j => df.columns.getD j ""),
       df.rows.map (fun r => ((List.range df.columns.length).filter
          (fun j => !(names.contains (df.columns.getD j "")))).map
        (fun j => r.getD j none))⟩ := by
  simp [dropColumns, hg]
  intro x hx
  exact List.mem_of_elem_eq_true (List.all_eq_true.mp hg x hx)

theorem dropnaIndex_full_thresh (df : DataFrame) (hwf : df.WF) :
    ∀ r ∈ (dropnaIndex df ((df.columns.length : ℤ))).rows, ∀ c ∈ r, c.isSome = true := by
  intro r hr c hc
  simp only [dropnaIndex, List.mem_filter, decide_eq_true_eq] at hr
  obtain ⟨hr1, hcount⟩ := hr
  have h1 : presentCount r ≤ r.length := List.countP_le_length _
  have h2 : r.length = df.columns.length := hwf r hr1
  have h3 : List.countP (fun c => c.isSome) r = r.length := by
    have : presentCount r = r.length := by omega
    exact this
  exact List.countP_eq_length.mp h3 c hc

theorem drop_missing_values_one_no_missing (df : DataFrame) (ct : ℚ) :
    ∀ r ∈ (drop_missing_values df ct 1).rows, ∀ c ∈ r, c.isSome = true := by
  have heq : drop_missing_values df ct 1
      = dropnaIndex (dropnaColumns df (pyRound ((df.rows.length : ℚ) * ct)))
        (((dropnaColumns df (pyRound ((df.rows.length : ℚ) * ct))).columns.length : ℤ)) := by
    simp only [drop_missing_values]
    rw [mul_one, pyRound_natCast]
  rw [heq]
  exact dropnaIndex_full_thresh _ (dropnaColumns_WF _ _)

/-- C4: on a conforming table (the seven modeling columns present after
the `dropSparse` step), `prepare_kepler_modeling` applies
`drop_missing_values(df, 0.75, 1)`, removes the rows whose
`koi_disposition` is CANDIDATE, projects onto the seven `koi_*` columns
in order, and renames them, returning exactly the seven renamed columns
in order; and no retained row has disposition CANDIDATE. -/
theorem prepare_kepler_modeling_spec (df : DataFrame) (j : ℕ) (idxs : List ℕ)
    (hj : colIdx? (drop_missing_values df (3/4) 1).columns "koi_disposition" = some j)
    (hsel : colIdxs? (drop_missing_values df (3/4) 1).columns modeling_columns_to_keep
      = some (j :: idxs)) :
    prepare_kepler_modeling df = some
      { columns := ["disposition", "transit_depth", "planetary_radius", "temperature",
          "normalized_depth", "orbital_period", "transit_duration"],
        rows := ((drop_missing_values df (3/4) 1).rows.filter
            (fun r => !(r.getD j none == some "CANDIDATE"))).map
          (fun r => (j :: idxs).map (fun k => r.getD k none)) } ∧
    (((drop_missing_values df (3/4) 1).rows.filter
        (fun r => !(r.getD j none == some "CANDIDATE"))).map
      (fun r => (j :: idxs).map (fun k => r.getD k none))).all
        (fun r => !(r.getD 0 none == some "CANDIDATE")) = true := by
  constructor
  · have h1 := filterNotCandidate_eq (drop_missing_values df (3/4) 1) j hj
    have h2 := selectColumns_eq
      (⟨(drop_missing_values df (3/4) 1).columns,
        (drop_missing_values df (3/4) 1).rows.filter
          (fun r => !(r.getD j none == some "CANDIDATE"))⟩ : DataFrame)
      modeling_columns_to_keep (j :: idxs) hsel
    simp only [prepare_kepler_modeling, h1, h2]
    refine congrArg some ?_
    simp only [renameColumns]
    congr 1
  · rw [List.all_eq_true]
    intro r hr
    obtain ⟨r0, hr0, rfl⟩ := List.mem_map.mp hr
    have hcond := (List.mem_filter.mp hr0).2
    simpa using hcond

/-- Witness for C4 at a concrete kepler-shaped table. -/
theorem prepare_kepler_modeling_spec_witness :
    prepare_kepler_modeling dfW = some
      { columns := ["disposition", "transit_depth", "planetary_radius", "temperature",
          "normalized_depth", "orbital_period", "transit_duration"],
        rows := ((drop_missing_values dfW (3/4) 1).rows.filter
            (fun r => !(r.getD 3 none == some "CANDIDATE"))).map
          (fun r => ([3, 4, 5, 6, 7, 8, 9].map (fun k => r.getD k none))) } ∧
    (((drop_missing_values dfW (3/4) 1).rows.filter
        (fun r => !(r.getD 3 none == some "CANDIDATE"))).map
      (fun r => ([3, 4, 5, 6, 7, 8, 9].map (fun k => r.getD k none)))).all
        (fun r => !(r.getD 0 none == some "CANDIDATE")) = true :=
  prepare_kepler_modeling_spec dfW 3 [4, 5, 6, 7, 8, 9]
    (by with_unfolding_all rfl) (by with_unfolding_all rfl)

/-- C5: `prepare_kepler_explore` applies `drop_missing_values(df, 0.75, 1)`,
removes the rows whose `koi_disposition` is CANDIDATE, drops the columns
`rowid`, `kepid`, `kepoi_name` (failing if any is absent), and renames
`koi_disposition` to `disposition`, leaving the other columns and the
retained rows unchanged and in order (the remaining cells of each row
are exactly those whose column is not dropped). -/
theorem prepare_kepler_explore_spec (df : DataFrame) (j : ℕ)
    (hj : colIdx? (drop_missing_values df (3/4) 1).columns "koi_disposition" = some j)
    (h2 : "rowid" ∈ (drop_missing_values df (3/4) 1).columns)
    (h3 : "kepid" ∈ (drop_missing_values df (3/4) 1).columns)
    (h4 : "kepoi_name" ∈ (drop_missing_values df (3/4) 1).columns) :
    prepare_kepler_explore df = some
      { columns := (((drop_missing_values df (3/4) 1).columns.filter
            (fun c => !(explore_columns_to_drop.contains c))).map
          (fun c => if c == "koi_disposition" then "disposition" else c)),
        rows := (((drop_missing_values df (3/4) 1).rows.filter
            (fun r => !(r.getD j none == some "CANDIDATE"))).map
          (fun r => ((drop_missing_values df (3/4) 1).columns.zip r).filterMap
            (fun cx => if explore_columns_to_drop.contains cx.1 then none
              else some cx.2))) } := by
  have hwf : (drop_missing_values df (3/4) 1).WF := drop_missing_values_WF df (3/4) 1
  have hguard : explore_columns_to_drop.all
      (fun n => (drop_missing_values df (3/4) 1).columns.contains n) = true := by
    rw [List.all_eq_true]
    intro n hn
    rcases List.mem_cons.mp hn with rfl | hn
    · exact List.elem_eq_true_of_mem h2
    rcases List.mem_cons.mp hn with rfl | hn
    · exact List.elem_eq_true_of_mem h3
    rcases List.mem_cons.mp hn with rfl | hn
    · exact List.elem_eq_true_of_mem h4
    · cases hn
  have h1 := filterNotCandidate_eq (drop_missing_values df (3/4) 1) j hj
  have hdc := dropColumns_eq
    (⟨(drop_missing_values df (3/4) 1).columns,
      (drop_missing_values df (3/4) 1).rows.filter
        (fun r => !(r.getD j none == some "CANDIDATE"))⟩ : DataFrame)
    explore_columns_to_drop hguard
  simp only [prepare_kepler_explore, h1, hdc]
  refine congrArg some ?_
  simp only [renameColumns]
  have hcols : (((List.range (drop_missing_values df (3/4) 1).columns.length).filter
        (fun k => !(explore_columns_to_drop.contains
          ((drop_missing_values df (3/4) 1).columns.getD k "")))).map
      (fun k => (drop_missing_values df (3/4) 1).columns.getD k "")).map
        (fun c => ([("koi_disposition", "disposition")].lookup c).getD c)
      = (((drop_missing_values df (3/4) 1).columns.filter
          (fun c => !(explore_columns_to_drop.contains c))).map
        (fun c => if c == "koi_disposition" then "disposition" else c)) := by
    rw [filter_range_getD (drop_missing_values df (3/4) 1).columns ""
      (fun c => !(explore_columns_to_drop.contains c))]
    refine List.map_congr_left ?_
    intro c _
    cases hc : c == "koi_disposition" <;> simp [List.lookup, hc]
  have hrows : ((drop_missing_values df (3/4) 1).rows.filter
        (fun r => !(r.getD j none == some "CANDIDATE"))).map
      (fun r => ((List.range (drop_missing_values df (3/4) 1).columns.length).filter
        (fun k => !(explore_columns_to_drop.contains
          ((drop_missing_values df (3/4) 1).columns.getD k "")))).map
        (fun k => r.getD k none))
      = (((drop_missing_values df (3/4) 1).rows.filter
          (fun r => !(r.getD j none == some "CANDIDATE"))).map
        (fun r => ((drop_missing_values df (3/4) 1).columns.zip r).filterMap
          (fun cx => if explore_columns_to_drop.contains cx.1 then none
            else some cx.2))) := by
    refine List.map_congr_left ?_
    intro r hr
    have hrlen : r.length = (drop_missing_values df (3/4) 1).columns.length :=
      hwf r (List.mem_filter.mp hr).1
    rw [filter_range_getD_zip (drop_missing_values df (3/4) 1).columns r "" none
      (fun c => !(explore_columns_to_drop.contains c)) hrlen]
    refine List.filterMap_congr ?_
    intro cx _
    cases hcx : explore_columns_to_drop.contains cx.1 <;> simp [hcx]
  rw [hcols, hrows]


/-- Witness for C5 at a concrete kepler-shaped table. -/
theorem prepare_kepler_explore_spec_witness :
    prepare_kepler_explore dfW = some
      { columns := (((drop_missing_values dfW (3/4) 1).columns.filter
            (fun c => !(explore_columns_to_drop.contains c))).map
          (fun c => if c == "koi_disposition" then "disposition" else c)),
        rows := (((drop_missing_values dfW (3/4) 1).rows.filter
            (fun r => !(r.getD 3 none == some "CANDIDATE"))).map
          (fun r => ((drop_missing_values dfW (3/4) 1).columns.zip r).filterMap
            (fun cx => if explore_columns_to_drop.contains cx.1 then none
              else some cx.2))) } :=
  prepare_kepler_explore_spec dfW 3 (by with_unfolding_all rfl)
    (by with_unfolding_all decide) (by with_unfolding_all decide)
    (by with_unfolding_all decide)

theorem dropColumns_none (df : DataFrame) (names : List String)
    (hg : names.all (fun n => df.columns.contains n) = false) :
    dropColumns df names = none := by
  have hg2 : ¬(names.all (fun n => df.columns.contains n) = true) := by
    rw [hg]
    exact Bool.false_ne_true
  simp only [dropColumns, if_neg hg2]

theorem proj_no_missing (r : List Cell) (ks : List ℕ)
    (hk : ∀ k ∈ ks, k < r.length)
    (hall : ∀ c ∈ r, c.isSome = true) :
    ∀ c ∈ ks.map (fun k => r.getD k none), c.isSome = true := by
  intro c hc
  obtain ⟨k, hkmem, rfl⟩ := List.mem_map.mp hc
  rw [List.getD_eq_getElem r none (hk k hkmem)]
  exact hall _ (List.getElem_mem (hk k hkmem))

/-- C10: any table returned by `prepare_kepler_explore` or
`prepare_kepler_modeling` has no missing value in any cell: the
`drop_missing_values` step with row threshold `1` removes every row with
a missing value, and the CANDIDATE filter, column drop or projection,
and renames introduce none. -/
theorem prepare_result_no_missing (df out : DataFrame)
    (h : prepare_kepler_explore df = some out ∨ prepare_kepler_modeling df = some out) :
    noMissing out = true := by
  have hnm := drop_missing_values_one_no_missing df (3/4)
  have hwf : (drop_missing_values df (3/4) 1).WF := drop_missing_values_WF df (3/4) 1
  rcases h with h | h
  · cases hj : colIdx? (drop_missing_values df (3/4) 1).columns "koi_disposition" with
    | none => simp [prepare_kepler_explore, filterNotCandidate, hj] at h
    | some j =>
      have h1 := filterNotCandidate_eq (drop_missing_values df (3/4) 1) j hj
      cases hg : explore_columns_to_drop.all
          (fun n => (drop_missing_values df (3/4) 1).columns.contains n) with
      | false =>
        have hdc := dropColumns_none
          (⟨(drop_missing_values df (3/4) 1).columns,
            (drop_missing_values df (3/4) 1).rows.filter
              (fun r => !(r.getD j none == some "CANDIDATE"))⟩ : DataFrame)
          explore_columns_to_drop hg
        simp only [prepare_kepler_explore, h1] at h
        rw [hdc] at h
        simp at h
      | true =>
        have hdc := dropColumns_eq
          (⟨(drop_missing_values df (3/4) 1).columns,
            (drop_missing_values df (3/4) 1).rows.filter
              (fun r => !(r.getD j none == some "CANDIDATE"))⟩ : DataFrame)
          explore_columns_to_drop hg
        simp only [prepare_kepler_explore, h1, hdc, Option.some.injEq] at h
        rw [← h]
        simp only [noMissing, renameColumns]
        rw [List.all_eq_true]
        intro r hr
        obtain ⟨r0, hr0, rfl⟩ := List.mem_map.mp hr
        rw [List.all_eq_true]
        refine proj_no_missing r0 _ ?_ ?_
        · intro k hk
          have hk2 := (List.mem_filter.mp hk).1
          have hk3 := List.mem_range.mp hk2
          rw [hwf r0 (List.mem_filter.mp hr0).1]
          exact hk3
        · exact hnm r0 (List.mem_filter.mp hr0).1
  · cases hj : colIdx? (drop_missing_values df (3/4) 1).columns "koi_disposition" with
    | none => simp [prepare_kepler_modeling, filterNotCandidate, hj] at h
    | some j =>
      have h1 := filterNotCandidate_eq (drop_missing_values df (3/4) 1) j hj
      cases hi : colIdxs? (drop_missing_values df (3/4) 1).columns
          modeling_columns_to_keep with
      | none =>
        simp [prepare_kepler_modeling, h1, selectColumns, hi] at h
      | some idxs =>
        have hsel := selectColumns_eq
          (⟨(drop_missing_values df (3/4) 1).columns,
            (drop_missing_values df (3/4) 1).rows.filter
              (fun r => !(r.getD j none == some "CANDIDATE"))⟩ : DataFrame)
          modeling_columns_to_keep idxs hi
        simp only [prepare_kepler_modeling, h1, hsel, Option.some.injEq] at h
        rw [← h]
        simp only [noMissing, renameColumns]
        rw [List.all_eq_true]
        intro r hr
        obtain ⟨r0, hr0, rfl⟩ := List.mem_map.mp hr
        rw [List.all_eq_true]
        refine proj_no_missing r0 _ ?_ ?_
        · intro k hk
          rw [hwf r0 (List.mem_filter.mp hr0).1]
          exact colIdxs?_lt _ _ _ hi k hk
        · exact hnm r0 (List.mem_filter.mp hr0).1

/-- Witness for C10: the two pipelines on a concrete table with missing
values yield tables with every cell present. -/
theorem prepare_result_no_missing_witness :
    noMissing ((prepare_kepler_explore dfW).getD ⟨[], []⟩) = true :=
  prepare_result_no_missing dfW ((prepare_kepler_explore dfW).getD ⟨[], []⟩)
    (Or.inl (by with_unfolding_all rfl))
